import Mathlib

/-!
Shallow embedding of the cocktail-aesthetics mapping library
(`cocktail_ologs.py` and `cocktail_aesthetics_mcp.py`): categorical enum
types, record data classes, the pure mapping functions ("morphisms"),
the orchestration function, record-to-profile conversion, the static
taxonomy, the lazily built profile cache and the query operations.
Python ints are modelled as `Int`, Python strings as `String`, dicts as
association lists in insertion order, and fallible conversion as `Except`.
-/

set_option maxRecDepth 4096
set_option linter.unusedVariables false

-- ==========================================================================
-- Python string primitives, modelled structurally on the character list
-- ==========================================================================

/-- Python `str.lower()` (ASCII case mapping, applied character-wise). -/
def pyLower (s : String) : String := ⟨s.data.map Char.toLower⟩

/-- Python `str.upper()` (ASCII case mapping, applied character-wise). -/
def pyUpper (s : String) : String := ⟨s.data.map Char.toUpper⟩

/-- Python `str.replace(old, new)` for a one-character pattern: every
occurrence of `c` is replaced by `r`. -/
def pyReplace1 (s : String) (c r : Char) : String :=
  ⟨s.data.map (fun a => if a = c then r else a)⟩

deriving instance DecidableEq for Except

-- ==========================================================================
-- Layer 1: categorical enums (Python `str`-valued Enum classes)
-- ==========================================================================

inductive SpiritBase
  | rum | whiskey | vodka | gin | tequila | cognac | mezcal
  deriving DecidableEq, Repr

inductive FlavorType
  | bitter | sweet | sour | spirit_forward | herbal | fruity | creamy | spiced | smoky
  deriving DecidableEq, Repr

inductive ComplexityLevel
  | simple | moderate | complex
  deriving DecidableEq, Repr

inductive ColorCategory
  | amber | ruby | golden | clear | dark | tropical | green | purple
  deriving DecidableEq, Repr

inductive LightingStyle
  | warm_side_lit | tiki_torch | golden_hour | moody_amber | crisp_backlit
  | neon_accent | diffused_soft | dramatic_shadow
  deriving DecidableEq, Repr

inductive MoodDescriptor
  | sophisticated | tropical | nostalgic | bold | elegant | playful | dark | aromatic
  deriving DecidableEq, Repr

inductive CompositionApproach
  | balanced | layered | minimalist | dramatic | garnish_focused
  deriving DecidableEq, Repr

inductive TextureQuality
  | smooth | crystalline | creamy | oily | effervescent | translucent | opaqueTexture | foamy
  deriving DecidableEq, Repr

inductive TemperatureVibe
  | warm | hot | cool | icy | ambient
  deriving DecidableEq, Repr

/-- The `.value` of the Python `str` enum member. -/
def SpiritBase.value : SpiritBase → String
  | .rum => "rum" | .whiskey => "whiskey" | .vodka => "vodka" | .gin => "gin"
  | .tequila => "tequila" | .cognac => "cognac" | .mezcal => "mezcal"

/-- The `.value` of the Python `str` enum member. -/
def FlavorType.value : FlavorType → String
  | .bitter => "bitter" | .sweet => "sweet" | .sour => "sour"
  | .spirit_forward => "spirit_forward" | .herbal => "herbal" | .fruity => "fruity"
  | .creamy => "creamy" | .spiced => "spiced" | .smoky => "smoky"

/-- The `.value` of the Python `str` enum member. -/
def ComplexityLevel.value : ComplexityLevel → String
  | .simple => "simple" | .moderate => "moderate" | .complex => "complex"

/-- The `.value` of the Python `str` enum member. -/
def ColorCategory.value : ColorCategory → String
  | .amber => "amber" | .ruby => "ruby" | .golden => "golden" | .clear => "clear"
  | .dark => "dark" | .tropical => "tropical" | .green => "green" | .purple => "purple"

/-- The `.value` of the Python `str` enum member. -/
def LightingStyle.value : LightingStyle → String
  | .warm_side_lit => "warm_side_lit" | .tiki_torch => "tiki_torch"
  | .golden_hour => "golden_hour" | .moody_amber => "moody_amber"
  | .crisp_backlit => "crisp_backlit" | .neon_accent => "neon_accent"
  | .diffused_soft => "diffused_soft" | .dramatic_shadow => "dramatic_shadow"

/-- The `.value` of the Python `str` enum member. -/
def MoodDescriptor.value : MoodDescriptor → String
  | .sophisticated => "sophisticated" | .tropical => "tropical"
  | .nostalgic => "nostalgic" | .bold => "bold" | .elegant => "elegant"
  | .playful => "playful" | .dark => "dark" | .aromatic => "aromatic"

/-- The `.value` of the Python `str` enum member. -/
def CompositionApproach.value : CompositionApproach → String
  | .balanced => "balanced" | .layered => "layered" | .minimalist => "minimalist"
  | .dramatic => "dramatic" | .garnish_focused => "garnish_focused"

/-- The `.value` of the Python `str` enum member. -/
def TextureQuality.value : TextureQuality → String
  | .smooth => "smooth" | .crystalline => "crystalline" | .creamy => "creamy"
  | .oily => "oily" | .effervescent => "effervescent" | .translucent => "translucent"
  | .opaqueTexture => "opaque" | .foamy => "foamy"

/-- The `.value` of the Python `str` enum member. -/
def TemperatureVibe.value : TemperatureVibe → String
  | .warm => "warm" | .hot => "hot" | .cool => "cool" | .icy => "icy"
  | .ambient => "ambient"

/-- `SpiritBase(s)`: Python value-based enum construction; `none` models the
`ValueError` raised on an unrecognized value. -/
def spiritBaseOfValue (s : String) : Option SpiritBase :=
  if s = "rum" then some .rum
  else if s = "whiskey" then some .whiskey
  else if s = "vodka" then some .vodka
  else if s = "gin" then some .gin
  else if s = "tequila" then some .tequila
  else if s = "cognac" then some .cognac
  else if s = "mezcal" then some .mezcal
  else none

/-- `FlavorType[n]`: Python name-based enum lookup (names are the uppercased
labels); `none` models the `KeyError` raised on an unrecognized name. -/
def flavorTypeOfName (n : String) : Option FlavorType :=
  if n = "BITTER" then some .bitter
  else if n = "SWEET" then some .sweet
  else if n = "SOUR" then some .sour
  else if n = "SPIRIT_FORWARD" then some .spirit_forward
  else if n = "HERBAL" then some .herbal
  else if n = "FRUITY" then some .fruity
  else if n = "CREAMY" then some .creamy
  else if n = "SPICED" then some .spiced
  else if n = "SMOKY" then some .smoky
  else none

/-- `ComplexityLevel(s)`: Python value-based enum construction; `none` models
the `ValueError` raised on an unrecognized value. -/
def complexityLevelOfValue (s : String) : Option ComplexityLevel :=
  if s = "simple" then some .simple
  else if s = "moderate" then some .moderate
  else if s = "complex" then some .complex
  else none

-- ==========================================================================
-- Layer 2: record data classes
-- ==========================================================================

structure FlavorProfile where
  primary_flavor : FlavorType
  secondary_flavors : List FlavorType
  complexity : ComplexityLevel
  warmth_level : Int
  bitterness : Int
  sweetness : Int
  richness : Int
  deriving DecidableEq, Repr

structure VisualParameters where
  primary_color_category : ColorCategory
  color_palette : List String
  lighting_style : LightingStyle
  primary_mood : MoodDescriptor
  secondary_moods : List MoodDescriptor
  composition_strategy : CompositionApproach
  texture_quality : TextureQuality
  temperature_vibe : TemperatureVibe
  deriving DecidableEq, Repr

structure CocktailProfile where
  name : String
  spirit_base : SpiritBase
  primary_flavor : FlavorType
  flavor_profile : FlavorProfile
  visual_parameters : VisualParameters
  description : String
  deriving DecidableEq, Repr

-- ==========================================================================
-- Layer 3: morphisms (class CocktailOlogMorphisms, staticmethods)
-- ==========================================================================

/-- `spirit_base_to_warmth`: fixed table over the closed enum (the Python
`.get(spirit, 5)` default is unreachable for well-typed enum members). -/
def spirit_base_to_warmth : SpiritBase → Int
  | .rum => 9
  | .whiskey => 8
  | .cognac => 9
  | .mezcal => 8
  | .tequila => 7
  | .gin => 5
  | .vodka => 3

/-- `spirit_base_to_color_category`: fixed table over the closed enum. -/
def spirit_base_to_color_category : SpiritBase → ColorCategory
  | .rum => .golden
  | .whiskey => .amber
  | .cognac => .amber
  | .mezcal => .golden
  | .tequila => .clear
  | .gin => .clear
  | .vodka => .clear

/-- `flavor_to_mood`: fixed table over the closed enum. -/
def flavor_to_mood : FlavorType → MoodDescriptor
  | .bitter => .sophisticated
  | .sweet => .playful
  | .spirit_forward => .bold
  | .herbal => .elegant
  | .fruity => .tropical
  | .creamy => .nostalgic
  | .smoky => .dark
  | .sour => .bold
  | .spiced => .aromatic

/-- `complexity_to_composition`: fixed table over the closed enum. -/
def complexity_to_composition : ComplexityLevel → CompositionApproach
  | .simple => .minimalist
  | .moderate => .balanced
  | .complex => .layered

/-- `bitterness_to_lighting`: threshold rule on the bitterness score. -/
def bitterness_to_lighting (bitterness : Int) : LightingStyle :=
  if bitterness ≥ 7 then .dramatic_shadow
  else if bitterness ≥ 5 then .warm_side_lit
  else .diffused_soft

/-- `warmth_and_complexity_to_lighting`: threshold rule combining spirit
warmth with ingredient complexity. -/
def warmth_and_complexity_to_lighting (warmth : Int) (complexity : ComplexityLevel) :
    LightingStyle :=
  if warmth ≥ 8 ∧ complexity = .complex then .golden_hour
  else if warmth ≥ 8 then .moody_amber
  else if warmth ≤ 4 then .crisp_backlit
  else .warm_side_lit

/-- `texture_from_components(has_cream, has_ice, is_effervescent)`. -/
def texture_from_components (has_cream has_ice is_effervescent : Bool) :
    TextureQuality :=
  if has_cream then .creamy
  else if is_effervescent then .effervescent
  else if has_ice then .crystalline
  else .translucent

/-- `build_visual_parameters`: the orchestration function composing the
sub-morphisms in the source's fixed order. -/
def build_visual_parameters (spirit : SpiritBase) (primary_flavor : FlavorType)
    (complexity : ComplexityLevel) (bitterness sweetness richness : Int)
    (color_palette : List String)
    (has_cream : Bool := false) (has_ice : Bool := true)
    (is_effervescent : Bool := false) : VisualParameters :=
  let primary_color := spirit_base_to_color_category spirit
  let primary_mood := flavor_to_mood primary_flavor
  let warmth := spirit_base_to_warmth spirit
  let composition := complexity_to_composition complexity
  let lighting := warmth_and_complexity_to_lighting warmth complexity
  let texture := texture_from_components has_cream has_ice is_effervescent
  let temperature : TemperatureVibe :=
    if warmth ≥ 8 then .warm
    else if warmth ≤ 3 then .icy
    else .ambient
  let secondary_moods : List MoodDescriptor := []
  let secondary_moods :=
    if richness ≥ 7 then secondary_moods ++ [MoodDescriptor.elegant] else secondary_moods
  let secondary_moods :=
    if complexity = .complex then secondary_moods ++ [MoodDescriptor.aromatic]
    else secondary_moods
  let secondary_moods :=
    if sweetness ≥ 6 then secondary_moods ++ [MoodDescriptor.playful] else secondary_moods
  { primary_color_category := primary_color
    color_palette := color_palette
    lighting_style := lighting
    primary_mood := primary_mood
    secondary_moods := secondary_moods
    composition_strategy := composition
    texture_quality := texture
    temperature_vibe := temperature }

-- ==========================================================================
-- Record-to-profile conversion (`cocktail_to_profile`)
-- ==========================================================================

/-- The raw cocktail dict: mandatory keys are plain fields, keys read via
`.get(key, default)` are `Option` fields. -/
structure RawRecord where
  name : String
  spirit_base : String
  primary_flavor : String
  complexity : Option String := none
  bitterness : Option Int := none
  sweetness : Option Int := none
  richness : Option Int := none
  color_palette : Option (List String) := none
  has_cream : Option Bool := none
  has_ice : Option Bool := none
  is_effervescent : Option Bool := none
  description : Option String := none
  deriving DecidableEq, Repr

/-- The lookup errors `cocktail_to_profile` can raise: `ValueError` from
`SpiritBase(...)`, `KeyError` from `FlavorType[...]`, `ValueError` from
`ComplexityLevel(...)`. -/
inductive ConvError
  | badSpirit (label : String)
  | badFlavor (label : String)
  | badComplexity (label : String)
  deriving DecidableEq, Repr

/-- `cocktail_to_profile`: raw record → CocktailProfile, failing with a
lookup error on any unrecognized enum label. -/
def cocktail_to_profile (d : RawRecord) : Except ConvError CocktailProfile :=
  match spiritBaseOfValue (pyLower d.spirit_base) with
  | none => .error (.badSpirit (pyLower d.spirit_base))
  | some spirit =>
    let primary_flavor_str := pyLower d.primary_flavor
    match flavorTypeOfName (pyUpper primary_flavor_str) with
    | none => .error (.badFlavor (pyUpper primary_flavor_str))
    | some primary_flavor =>
      let complexity_str := pyLower (d.complexity.getD "moderate")
      match complexityLevelOfValue complexity_str with
      | none => .error (.badComplexity complexity_str)
      | some complexity =>
        let bitterness := d.bitterness.getD 5
        let sweetness := d.sweetness.getD 5
        let richness := d.richness.getD 5
        let flavor_profile_obj : FlavorProfile :=
          { primary_flavor := primary_flavor
            secondary_flavors := []
            complexity := complexity
            warmth_level := spirit_base_to_warmth spirit
            bitterness := bitterness
            sweetness := sweetness
            richness := richness }
        let visual := build_visual_parameters spirit primary_flavor complexity
          bitterness sweetness richness (d.color_palette.getD [])
          (d.has_cream.getD false) (d.has_ice.getD true)
          (d.is_effervescent.getD false)
        .ok { name := d.name
              spirit_base := spirit
              primary_flavor := primary_flavor
              flavor_profile := flavor_profile_obj
              visual_parameters := visual
              description := d.description.getD "" }

-- ==========================================================================
-- Static taxonomy data (COCKTAIL_TAXONOMY, in insertion order)
-- ==========================================================================

def negroniRec : RawRecord :=
  { name := "Negroni", spirit_base := "gin", primary_flavor := "bitter"
    complexity := some "simple", bitterness := some 8, sweetness := some 3
    richness := some 6
    color_palette := some ["#8B1A1A", "#D2691E", "#FFA500"]
    has_cream := some false, has_ice := some true, is_effervescent := some false
    description := some "Classic aperitivo: gin, Campari, vermouth rosso. Bitter, bold, balanced." }

def maiTaiRec : RawRecord :=
  { name := "Mai Tai", spirit_base := "rum", primary_flavor := "fruity"
    complexity := some "complex", bitterness := some 2, sweetness := some 6
    richness := some 8
    color_palette := some ["#FF6B35", "#F7931E", "#8B4513", "#00A86B"]
    has_cream := some false, has_ice := some true, is_effervescent := some false
    description := some "Tiki classic: aged rum, lime, orgeat, curaçao. Sweet, tropical, complex." }

def daiquiriRec : RawRecord :=
  { name := "Daiquiri", spirit_base := "rum", primary_flavor := "sour"
    complexity := some "simple", bitterness := some 1, sweetness := some 3
    richness := some 3
    color_palette := some ["#FFF8DC", "#FFE4B5", "#F0E68C"]
    has_cream := some false, has_ice := some true, is_effervescent := some false
    description := some "Elegant simplicity: white rum, fresh lime, simple syrup." }

def oldFashionedRec : RawRecord :=
  { name := "Old Fashioned", spirit_base := "whiskey", primary_flavor := "spirit_forward"
    complexity := some "simple", bitterness := some 4, sweetness := some 2
    richness := some 7
    color_palette := some ["#8B4513", "#A0522D", "#654321"]
    has_cream := some false, has_ice := some true, is_effervescent := some false
    description := some "Timeless classic: whiskey, sugar, bitters, orange twist." }

def mojitoRec : RawRecord :=
  { name := "Mojito", spirit_base := "rum", primary_flavor := "herbal"
    complexity := some "moderate", bitterness := some 1, sweetness := some 4
    richness := some 2
    color_palette := some ["#00AA66", "#FFE4B5", "#FFFFFF"]
    has_cream := some false, has_ice := some true, is_effervescent := some true
    description := some "Refreshing summer drink: white rum, mint, lime, soda, sugar." }

def margaritaRec : RawRecord :=
  { name := "Margarita", spirit_base := "tequila", primary_flavor := "sour"
    complexity := some "moderate", bitterness := some 0, sweetness := some 4
    richness := some 3
    color_palette := some ["#FFE4B5", "#FFA500", "#FF6347"]
    has_cream := some false, has_ice := some true, is_effervescent := some false
    description := some "Iconic: tequila, lime, triple sec, salt rim." }

def espressoMartiniRec : RawRecord :=
  { name := "Espresso Martini", spirit_base := "vodka", primary_flavor := "bitter"
    complexity := some "moderate", bitterness := some 6, sweetness := some 5
    richness := some 8
    color_palette := some ["#2F4F4F", "#8B7355", "#FFFFFF"]
    has_cream := some false, has_ice := some false, is_effervescent := some false
    description := some "Modern sophistication: vodka, coffee liqueur, espresso, cream." }

def sazeracRec : RawRecord :=
  { name := "Sazerac", spirit_base := "whiskey", primary_flavor := "herbal"
    complexity := some "simple", bitterness := some 5, sweetness := some 1
    richness := some 6
    color_palette := some ["#A0522D", "#8B4513", "#FFD700"]
    has_cream := some false, has_ice := some true, is_effervescent := some false
    description := some "New Orleans classic: rye, absinthe, Peychaud's bitters." }

def COCKTAIL_TAXONOMY : List (String × RawRecord) :=
  [("negroni", negroniRec), ("mai_tai", maiTaiRec), ("daiquiri", daiquiriRec),
   ("old_fashioned", oldFashionedRec), ("mojito", mojitoRec),
   ("margarita", margaritaRec), ("espresso_martini", espressoMartiniRec),
   ("sazerac", sazeracRec)]

-- ==========================================================================
-- Interface layer (cocktail_aesthetics_mcp.py)
-- ==========================================================================

/-- The `_ensure_cached` population loop: convert each taxonomy record,
catching the conversion error per record and skipping that record. -/
def ensure_cached : List (String × RawRecord) → List (String × CocktailProfile)
  | [] => []
  | (k, d) :: rest =>
    match cocktail_to_profile d with
    | .ok p => (k, p) :: ensure_cached rest
    | .error _ => ensure_cached rest

/-- The populated `_profile_cache`. -/
def profile_cache : List (String × CocktailProfile) :=
  ensure_cached COCKTAIL_TAXONOMY

/-- Dict membership / subscript over the cache model. -/
def cacheLookup (c : List (String × CocktailProfile)) (k : String) :
    Option CocktailProfile :=
  (c.find? (fun kp => kp.1 == k)).map (·.2)

/-- The lookup-key normalization shared by the three name-taking tools:
`cocktail_name.lower().replace(" ", "_").replace("-", "_")`. -/
def normalizeKey (s : String) : String :=
  pyReplace1 (pyReplace1 (pyLower s) ' ' '_') '-' '_'

/-- The dict suffix returned by `get_cocktail_profile` under
`"flavor_profile"`. -/
structure FlavorProfileView where
  complexity : String
  bitterness : Int
  sweetness : Int
  richness : Int
  warmth_level : Int
  deriving DecidableEq, Repr

/-- The dict returned by `get_cocktail_profile` on success. -/
structure ProfileView where
  name : String
  spirit_base : String
  primary_flavor : String
  flavor_profile : FlavorProfileView
  description : String
  deriving DecidableEq, Repr

/-- Tool `get_cocktail_profile`: the `{"error": ...}` dict is the `.error`
branch, the full profile dict the `.ok` branch. -/
def get_cocktail_profile (cocktail_name : String) : Except String ProfileView :=
  let key := normalizeKey cocktail_name
  match cacheLookup profile_cache key with
  | none => .error ("Cocktail '" ++ cocktail_name ++ "' not found")
  | some profile =>
    .ok { name := profile.name
          spirit_base := profile.spirit_base.value
          primary_flavor := profile.primary_flavor.value
          flavor_profile :=
            { complexity := profile.flavor_profile.complexity.value
              bitterness := profile.flavor_profile.bitterness
              sweetness := profile.flavor_profile.sweetness
              richness := profile.flavor_profile.richness
              warmth_level := profile.flavor_profile.warmth_level }
          description := profile.description }

/-- The dict produced by `VisualParameters.to_dict`. -/
structure VisualDict where
  primary_color : String
  color_palette : List String
  lighting : String
  mood : String
  secondary_moods : List String
  composition : String
  texture : String
  temperature : String
  deriving DecidableEq, Repr

/-- `VisualParameters.to_dict`. -/
def VisualParameters.toDict (v : VisualParameters) : VisualDict :=
  { primary_color := v.primary_color_category.value
    color_palette := v.color_palette
    lighting := v.lighting_style.value
    mood := v.primary_mood.value
    secondary_moods := v.secondary_moods.map MoodDescriptor.value
    composition := v.composition_strategy.value
    texture := v.texture_quality.value
    temperature := v.temperature_vibe.value }

/-- The `[visual.primary_mood.value] + [m.value for m in visual.secondary_moods]`
assembly used by `get_visual_parameters` and `enhance_prompt_with_cocktail`. -/
def assembleMoodKeywords (v : VisualParameters) : List String :=
  [v.primary_mood.value] ++ v.secondary_moods.map MoodDescriptor.value

/-- The dict returned by `get_visual_parameters` on success. -/
structure VisualView where
  cocktail : String
  visual_parameters : VisualDict
  composition_strategy : String
  temperature_vibe : String
  mood_keywords : List String
  deriving DecidableEq, Repr

/-- Tool `get_visual_parameters`. -/
def get_visual_parameters (cocktail_name : String) : Except String VisualView :=
  let key := normalizeKey cocktail_name
  match cacheLookup profile_cache key with
  | none => .error ("Cocktail '" ++ cocktail_name ++ "' not found")
  | some profile =>
    let visual := profile.visual_parameters
    .ok { cocktail := profile.name
          visual_parameters := visual.toDict
          composition_strategy := visual.composition_strategy.value
          temperature_vibe := visual.temperature_vibe.value
          mood_keywords := assembleMoodKeywords visual }

/-- The dict returned by `enhance_prompt_with_cocktail` on success. -/
structure Enhancement where
  original_prompt : String
  cocktail : String
  color_direction : List String
  lighting_style : String
  mood_keywords : List String
  composition_guide : String
  texture_notes : String
  temperature_vibe : String
  suggested_enhancement : String
  deriving DecidableEq, Repr

/-- Tool `enhance_prompt_with_cocktail`. -/
def enhance_prompt_with_cocktail (base_prompt cocktail_name : String) :
    Except String Enhancement :=
  let key := normalizeKey cocktail_name
  match cacheLookup profile_cache key with
  | none => .error ("Cocktail '" ++ cocktail_name ++ "' not found")
  | some profile =>
    let visual := profile.visual_parameters
    .ok { original_prompt := base_prompt
          cocktail := profile.name
          color_direction := visual.color_palette
          lighting_style := visual.lighting_style.value
          mood_keywords := assembleMoodKeywords visual
          composition_guide := visual.composition_strategy.value
          texture_notes := visual.texture_quality.value
          temperature_vibe := visual.temperature_vibe.value
          suggested_enhancement :=
            "Add these aesthetic qualities to your prompt: " ++
            String.intercalate ", " (assembleMoodKeywords visual) ++ ". " ++
            "Use " ++ visual.lighting_style.value ++ " lighting. " ++
            "Color palette suggestion: " ++
            String.intercalate ", " (visual.color_palette.take 2) ++ ". " ++
            "Composition: " ++ visual.composition_strategy.value ++ ". " ++
            "Texture: " ++ visual.texture_quality.value ++ "." }

/-- One entry of the `matches` list of `search_cocktails_by_flavor`. -/
structure MatchEntry where
  name : String
  id : String
  description : String
  deriving DecidableEq, Repr

/-- The dict returned by `search_cocktails_by_flavor`. -/
structure SearchResult where
  flavor : String
  «matches» : List MatchEntry
  count : Nat
  deriving DecidableEq, Repr

/-- Tool `search_cocktails_by_flavor`: lowercases the flavor argument and
scans the cache in order for an exact primary-flavor match. -/
def search_cocktails_by_flavor (flavor : String) : SearchResult :=
  let flavor_lower := pyLower flavor
  let matching := profile_cache.filterMap (fun kp =>
    if kp.2.primary_flavor.value = flavor_lower then
      some (⟨kp.2.name, kp.1, kp.2.description⟩ : MatchEntry)
    else none)
  { flavor := flavor_lower, «matches» := matching, count := matching.length }

/-- The dict returned by `get_spirit_warmth` on success. -/
structure SpiritWarmth where
  spirit : String
  warmth_level : Int
  interpretation : String
  deriving DecidableEq, Repr

/-- The local 7-entry `warmth_map` of `get_spirit_warmth`. -/
def warmth_map : List (String × Int) :=
  [("rum", 9), ("whiskey", 8), ("cognac", 9), ("mezcal", 8),
   ("tequila", 7), ("gin", 5), ("vodka", 3)]

/-- Tool `get_spirit_warmth`: fixed 7-entry table, case-insensitive, with a
not-found error shape instead of a fallback default. -/
def get_spirit_warmth (spirit_name : String) : Except String SpiritWarmth :=
  let spirit_lower := pyLower spirit_name
  match (warmth_map.find? (fun kv => kv.1 == spirit_lower)).map (·.2) with
  | none => .error ("Spirit '" ++ spirit_name ++ "' not recognized")
  | some warmth =>
    let interpretation :=
      if warmth ≥ 8 then "very warm, golden, nostalgic"
      else if warmth ≥ 6 then "warm, moderate, balanced"
      else "cool, crisp, clean"
    .ok { spirit := spirit_lower, warmth_level := warmth
          interpretation := interpretation }

-- ==========================================================================
-- Auxiliary definitions for the verification development
-- ==========================================================================

/-- Success test for an `Except` result (dict has no `"error"` key). -/
def exceptOk {ε α : Type} : Except ε α → Bool
  | .ok _ => true
  | .error _ => false

/-- The recognized `SpiritBase` enum labels. -/
def spiritLabels : List String :=
  ["rum", "whiskey", "vodka", "gin", "tequila", "cognac", "mezcal"]

/-- The recognized `FlavorType` enum labels. -/
def flavorLabels : List String :=
  ["bitter", "sweet", "sour", "spirit_forward", "herbal", "fruity",
   "creamy", "spiced", "smoky"]

/-- The recognized `ComplexityLevel` enum labels. -/
def complexityLabels : List String := ["simple", "moderate", "complex"]

/-- A raw record whose spirit-base label is not a recognized enum label. -/
def badSpiritRec : RawRecord :=
  { name := "Bad", spirit_base := "absinthe", primary_flavor := "bitter" }

/-- A demonstration taxonomy with one malformed record between two good
ones. -/
def demoTaxonomy : List (String × RawRecord) :=
  [("negroni", negroniRec), ("bad", badSpiritRec), ("sazerac", sazeracRec)]

/-- The profile `cocktail_to_profile` derives from the Negroni record. -/
def negroniProfileVal : CocktailProfile :=
  { name := "Negroni"
    spirit_base := .gin
    primary_flavor := .bitter
    flavor_profile :=
      { primary_flavor := .bitter, secondary_flavors := []
        complexity := .simple, warmth_level := 5
        bitterness := 8, sweetness := 3, richness := 6 }
    visual_parameters :=
      { primary_color_category := .clear
        color_palette := ["#8B1A1A", "#D2691E", "#FFA500"]
        lighting_style := .warm_side_lit
        primary_mood := .sophisticated
        secondary_moods := []
        composition_strategy := .minimalist
        texture_quality := .crystalline
        temperature_vibe := .ambient }
    description := "Classic aperitivo: gin, Campari, vermouth rosso. Bitter, bold, balanced." }

-- ==========================================================================
-- Helper lemmas
-- ==========================================================================

/-- `Char.ofNat` round-trips on valid codepoints. -/
theorem char_toNat_ofNat {m : Nat} (h : m.isValidChar) :
    (Char.ofNat m).toNat = m := by
  rw [Char.ofNat, dif_pos h]
  rfl

/-- ASCII case mapping: uppercasing after lowercasing is uppercasing. -/
theorem char_toUpper_toLower (c : Char) : c.toLower.toUpper = c.toUpper := by
  unfold Char.toLower Char.toUpper
  by_cases h : 65 ≤ c.toNat ∧ c.toNat ≤ 90
  · have hv : (c.toNat + 32).isValidChar := Or.inl (by omega)
    rw [if_pos h, char_toNat_ofNat hv, if_pos (by omega),
      if_neg (by omega), show c.toNat + 32 - 32 = c.toNat by omega,
      Char.ofNat_toNat]
  · rw [if_neg h]

/-- ASCII case mapping: lowercasing after uppercasing is lowercasing. -/
theorem char_toLower_toUpper (c : Char) : c.toUpper.toLower = c.toLower := by
  unfold Char.toLower Char.toUpper
  by_cases h : 97 ≤ c.toNat ∧ c.toNat ≤ 122
  · have hv : (c.toNat - 32).isValidChar := Or.inl (by omega)
    rw [if_pos h, char_toNat_ofNat hv, if_pos (by omega),
      if_neg (by omega), show c.toNat - 32 + 32 = c.toNat by omega,
      Char.ofNat_toNat]
  · rw [if_neg h]

/-- `pyUpper` is insensitive to a prior `pyLower`. -/
theorem pyUpper_pyLower (s : String) : pyUpper (pyLower s) = pyUpper s := by
  unfold pyUpper pyLower
  simp [List.map_map, Function.comp_def, char_toUpper_toLower]

/-- `pyLower` is insensitive to a prior `pyUpper`. -/
theorem pyLower_pyUpper (s : String) : pyLower (pyUpper s) = pyLower s := by
  unfold pyUpper pyLower
  simp [List.map_map, Function.comp_def, char_toLower_toUpper]

/-- A string outside the spirit labels fails value-based construction. -/
theorem spiritBaseOfValue_eq_none {s : String} (h : s ∉ spiritLabels) :
    spiritBaseOfValue s = none := by
  simp only [spiritLabels, List.mem_cons, List.not_mem_nil, or_false,
    not_or] at h
  obtain ⟨h1, h2, h3, h4, h5, h6, h7⟩ := h
  simp [spiritBaseOfValue, h1, h2, h3, h4, h5, h6, h7]

/-- A string outside the complexity labels fails value-based construction. -/
theorem complexityLevelOfValue_eq_none {s : String} (h : s ∉ complexityLabels) :
    complexityLevelOfValue s = none := by
  simp only [complexityLabels, List.mem_cons, List.not_mem_nil, or_false,
    not_or] at h
  obtain ⟨h1, h2, h3⟩ := h
  simp [complexityLevelOfValue, h1, h2, h3]

/-- A string whose lowercasing is outside the flavor labels fails the
name-based lookup done on its uppercasing. -/
theorem flavorTypeOfName_eq_none {s : String} (h : pyLower s ∉ flavorLabels) :
    flavorTypeOfName (pyUpper s) = none := by
  have key : ∀ t : String, pyUpper s = pyUpper t → pyLower s = pyLower t := by
    intro t ht
    rw [← pyLower_pyUpper s, ht, pyLower_pyUpper]
  simp only [flavorLabels, List.mem_cons, List.not_mem_nil, or_false,
    not_or] at h
  unfold flavorTypeOfName
  split_ifs with h1 h2 h3 h4 h5 h6 h7 h8 h9
  · exact absurd (key "bitter" (by rw [h1]; rfl)) (by simpa using h.1)
  · exact absurd (key "sweet" (by rw [h2]; rfl)) (by simpa using h.2.1)
  · exact absurd (key "sour" (by rw [h3]; rfl)) (by simpa using h.2.2.1)
  · exact absurd (key "spirit_forward" (by rw [h4]; rfl))
      (by simpa using h.2.2.2.1)
  · exact absurd (key "herbal" (by rw [h5]; rfl)) (by simpa using h.2.2.2.2.1)
  · exact absurd (key "fruity" (by rw [h6]; rfl))
      (by simpa using h.2.2.2.2.2.1)
  · exact absurd (key "creamy" (by rw [h7]; rfl))
      (by simpa using h.2.2.2.2.2.2.1)
  · exact absurd (key "spiced" (by rw [h8]; rfl))
      (by simpa using h.2.2.2.2.2.2.2.1)
  · exact absurd (key "smoky" (by rw [h9]; rfl))
      (by simpa using h.2.2.2.2.2.2.2.2)
  · rfl

-- ==========================================================================
-- Claim theorems
-- ==========================================================================

/-- C1: the final lighting-style mapping returns golden_hour when
warmth ≥ 8 and complexity is complex, moody_amber when warmth ≥ 8 and
complexity is not complex, crisp_backlit when warmth ≤ 4, and
warm_side_lit otherwise; in particular warmth 9 with complex gives
golden_hour, warmth 9 with simple gives moody_amber, warmth 3 with any
complexity gives crisp_backlit, and warmth 6 with moderate gives
warm_side_lit. -/
theorem lighting_final_mapping_c1 :
    (∀ (w : Int) (c : ComplexityLevel),
      warmth_and_complexity_to_lighting w c =
        if w ≥ 8 ∧ c = ComplexityLevel.complex then LightingStyle.golden_hour
        else if w ≥ 8 then LightingStyle.moody_amber
        else if w ≤ 4 then LightingStyle.crisp_backlit
        else LightingStyle.warm_side_lit) ∧
    warmth_and_complexity_to_lighting 9 .complex = .golden_hour ∧
    warmth_and_complexity_to_lighting 9 .simple = .moody_amber ∧
    (∀ c, warmth_and_complexity_to_lighting 3 c = .crisp_backlit) ∧
    warmth_and_complexity_to_lighting 6 .moderate = .warm_side_lit := by
  refine ⟨fun w c => rfl, rfl, rfl, fun c => ?_, rfl⟩
  cases c <;> rfl

/-- C2: the secondary_moods list built by the orchestration function is the
concatenation of three independent threshold checks in fixed order —
richness ≥ 7 contributes elegant, then complexity = complex contributes
aromatic, then sweetness ≥ 6 contributes playful; richness 8 with complex
and sweetness 7 yields exactly [elegant, aromatic, playful], and richness 2
with simple and sweetness 1 yields the empty list. -/
theorem secondary_moods_accumulation_c2 :
    (∀ (sp : SpiritBase) (fl : FlavorType) (cx : ComplexityLevel)
       (b sw ri : Int) (pal : List String) (hc hi he : Bool),
      (build_visual_parameters sp fl cx b sw ri pal hc hi he).secondary_moods =
        (if ri ≥ 7 then [MoodDescriptor.elegant] else []) ++
        (if cx = ComplexityLevel.complex then [MoodDescriptor.aromatic] else []) ++
        (if sw ≥ 6 then [MoodDescriptor.playful] else [])) ∧
    (build_visual_parameters .rum .fruity .complex 2 7 8 [] false true
        false).secondary_moods =
      [MoodDescriptor.elegant, MoodDescriptor.aromatic, MoodDescriptor.playful] ∧
    (build_visual_parameters .gin .sour .simple 0 1 2 [] false true
        false).secondary_moods = [] := by
  refine ⟨fun sp fl cx b sw ri pal hc hi he => ?_, by decide, by decide⟩
  unfold build_visual_parameters
  dsimp only
  split_ifs <;> simp

/-- C3: the texture mapping applies the priority cream over effervescence
over ice over none; in particular cream with everything gives creamy,
effervescent with ice but no cream gives effervescent, ice alone gives
crystalline, and none of the three gives translucent. -/
theorem texture_priority_c3 :
    (∀ has_cream has_ice is_effervescent : Bool,
      texture_from_components has_cream has_ice is_effervescent =
        if has_cream then TextureQuality.creamy
        else if is_effervescent then TextureQuality.effervescent
        else if has_ice then TextureQuality.crystalline
        else TextureQuality.translucent) ∧
    texture_from_components true true true = .creamy ∧
    texture_from_components false true true = .effervescent ∧
    texture_from_components false true false = .crystalline ∧
    texture_from_components false false false = .translucent := by
  exact ⟨fun a b c => rfl, rfl, rfl, rfl, rfl⟩

/-- C4: the orchestration function does not depend on its bitterness
argument — two runs differing only in bitterness give identical
VisualParameters — while the bitterness-only lighting mapping would give a
different lighting (e.g. for the Negroni inputs it computes dramatic_shadow
where the orchestration output is warm_side_lit), so the bitterness-based
lighting mapping is never consumed by the orchestration path. -/
theorem bitterness_not_consumed_c4 :
    (∀ (sp : SpiritBase) (fl : FlavorType) (cx : ComplexityLevel)
       (b₁ b₂ sw ri : Int) (pal : List String) (hc hi he : Bool),
      build_visual_parameters sp fl cx b₁ sw ri pal hc hi he =
        build_visual_parameters sp fl cx b₂ sw ri pal hc hi he) ∧
    (build_visual_parameters .gin .bitter .simple 8 3 6 [] false true
        false).lighting_style = .warm_side_lit ∧
    bitterness_to_lighting 8 = .dramatic_shadow := by
  exact ⟨fun sp fl cx b₁ b₂ sw ri pal hc hi he => rfl, by decide, by decide⟩

/-- C10: the primary mood is not guaranteed distinct from the secondary
moods — for the herbal flavor with richness ≥ 7 the mood_keywords list
assembled as [primary mood] + secondary moods contains "elegant" twice —
and the assembly never deduplicates: its length is always one more than
the number of secondary moods. -/
theorem duplicate_mood_keywords_c10 :
    assembleMoodKeywords
        (build_visual_parameters .gin .herbal .simple 0 0 8 [] false true
          false) = ["elegant", "elegant"] ∧
    ¬ (assembleMoodKeywords
        (build_visual_parameters .gin .herbal .simple 0 0 8 [] false true
          false)).Nodup ∧
    (∀ v : VisualParameters,
      (assembleMoodKeywords v).length = 1 + v.secondary_moods.length) := by
  refine ⟨by decide, by decide, fun v => ?_⟩
  simp [assembleMoodKeywords, Nat.add_comm]

/-- C5: record-to-profile conversion is deterministic — two runs on the same
record agree, and any two successful results on the same record are
field-for-field identical — and the derived fields are pure functions of
the record: the warmth level is spirit_base_to_warmth of the spirit and the
visual parameters are exactly build_visual_parameters of the record's
fields. -/
theorem conversion_deterministic_c5 :
    (∀ d : RawRecord, cocktail_to_profile d = cocktail_to_profile d) ∧
    (∀ (d : RawRecord) (p q : CocktailProfile),
      cocktail_to_profile d = Except.ok p → cocktail_to_profile d = Except.ok q →
        p = q) ∧
    (∀ (d : RawRecord) (p : CocktailProfile),
      cocktail_to_profile d = Except.ok p →
        p.flavor_profile.warmth_level = spirit_base_to_warmth p.spirit_base ∧
        p.visual_parameters = build_visual_parameters p.spirit_base
          p.primary_flavor p.flavor_profile.complexity
          p.flavor_profile.bitterness p.flavor_profile.sweetness
          p.flavor_profile.richness (d.color_palette.getD [])
          (d.has_cream.getD false) (d.has_ice.getD true)
          (d.is_effervescent.getD false)) := by
  refine ⟨fun d => rfl, fun d p q hp hq => ?_, fun d p hp => ?_⟩
  · exact Except.ok.inj (hp.symm.trans hq)
  · unfold cocktail_to_profile at hp
    rcases hs : spiritBaseOfValue (pyLower d.spirit_base) with _ | sp
    · simp only [hs] at hp
      exact Except.noConfusion hp
    simp only [hs] at hp
    rcases hf : flavorTypeOfName (pyUpper (pyLower d.primary_flavor)) with _ | fl
    · simp only [hf] at hp
      exact Except.noConfusion hp
    simp only [hf] at hp
    rcases hc : complexityLevelOfValue (pyLower (d.complexity.getD "moderate")) with _ | cx
    · simp only [hc] at hp
      exact Except.noConfusion hp
    simp only [hc] at hp
    injection hp with h
    rw [← h]
    exact ⟨rfl, rfl⟩

/-- C5 witness: the hypotheses of the determinism and purity statements are
satisfied at the Negroni record, whose conversion succeeds with the
expected profile. -/
theorem conversion_deterministic_c5_witness :
    negroniProfileVal = negroniProfileVal ∧
    negroniProfileVal.flavor_profile.warmth_level =
      spirit_base_to_warmth negroniProfileVal.spirit_base :=
  ⟨conversion_deterministic_c5.2.1 negroniRec negroniProfileVal
      negroniProfileVal (by decide) (by decide),
   (conversion_deterministic_c5.2.2 negroniRec negroniProfileVal
      (by decide)).1⟩

/-- C6 counterexample: "spirit forward" and "spirit_forward" are equal
after the lowercase/space/hyphen normalization, yet
search_cocktails_by_flavor gives them different results (it lowercases
only), so not every query operation resolves normalization-equal keys
identically. -/
theorem normalized_key_c6_counterexample :
    normalizeKey "spirit forward" = normalizeKey "spirit_forward" ∧
    search_cocktails_by_flavor "spirit forward" ≠
      search_cocktails_by_flavor "spirit_forward" := by
  constructor
  · decide
  · decide

/-- C6 (amended): the three name-taking query operations normalize their
lookup key identically (lowercase, spaces and hyphens to underscores), so
any two names with the same normalized key that is present in the cache
produce equal results from each of them; in particular "Old Fashioned",
"old-fashioned" and "OLD_FASHIONED" all resolve to the same cached
profile. -/
theorem normalized_key_name_ops_c6 :
    (∀ a b : String, normalizeKey a = normalizeKey b →
      (cacheLookup profile_cache (normalizeKey a)).isSome →
        get_cocktail_profile a = get_cocktail_profile b ∧
        get_visual_parameters a = get_visual_parameters b ∧
        ∀ bp : String, enhance_prompt_with_cocktail bp a =
          enhance_prompt_with_cocktail bp b) ∧
    get_cocktail_profile "Old Fashioned" = get_cocktail_profile "old-fashioned" ∧
    get_cocktail_profile "old-fashioned" = get_cocktail_profile "OLD_FASHIONED" ∧
    exceptOk (get_cocktail_profile "Old Fashioned") = true := by
  refine ⟨fun a b hab hsome => ?_, by decide, by decide, by decide⟩
  rcases h : cacheLookup profile_cache (normalizeKey a) with _ | p
  · rw [h] at hsome
    simp at hsome
  · have hb : cacheLookup profile_cache (normalizeKey b) = some p := hab ▸ h
    refine ⟨?_, ?_, fun bp => ?_⟩ <;>
      simp only [get_cocktail_profile, get_visual_parameters,
        enhance_prompt_with_cocktail, h, hb]

/-- C6 witness: the normalization-equality and cache-membership hypotheses
are satisfied at "Old Fashioned" and "old-fashioned". -/
theorem normalized_key_name_ops_c6_witness :
    get_cocktail_profile "Old Fashioned" =
      get_cocktail_profile "old-fashioned" :=
  (normalized_key_name_ops_c6.1 "Old Fashioned" "old-fashioned" (by decide)
    (by decide)).1

/-- C7: for every cocktail-name string whose normalized key is absent from
the cache, each of the three name-taking query operations returns the
structured not-found error value rather than failing. -/
theorem unknown_name_structured_error_c7 :
    ∀ nm : String, cacheLookup profile_cache (normalizeKey nm) = none →
      get_cocktail_profile nm =
        Except.error ("Cocktail '" ++ nm ++ "' not found") ∧
      get_visual_parameters nm =
        Except.error ("Cocktail '" ++ nm ++ "' not found") ∧
      ∀ bp : String, enhance_prompt_with_cocktail bp nm =
        Except.error ("Cocktail '" ++ nm ++ "' not found") := by
  intro nm h
  refine ⟨?_, ?_, fun bp => ?_⟩ <;>
    simp only [get_cocktail_profile, get_visual_parameters,
      enhance_prompt_with_cocktail, h]

/-- C7 witness: "martini" has no cache entry and each operation returns the
structured error. -/
theorem unknown_name_structured_error_c7_witness :
    get_cocktail_profile "martini" =
      Except.error ("Cocktail '" ++ "martini" ++ "' not found") :=
  (unknown_name_structured_error_c7 "martini" (by decide)).1

/-- C8: conversion fails hard on any record whose spirit-base,
primary-flavor or complexity string does not match a recognized enum label
after lowercasing; the cache-population loop catches the error per record,
skipping exactly the failing records while converting and caching every
remaining one (demonstrated on a taxonomy with one malformed record between
two good ones). -/
theorem conversion_fails_hard_cache_skips_c8 :
    (∀ d : RawRecord,
      (pyLower d.spirit_base ∉ spiritLabels ∨
       pyLower d.primary_flavor ∉ flavorLabels ∨
       pyLower (d.complexity.getD "moderate") ∉ complexityLabels) →
        exceptOk (cocktail_to_profile d) = false) ∧
    (∀ tax : List (String × RawRecord),
      ensure_cached tax = tax.filterMap (fun kd =>
        match cocktail_to_profile kd.2 with
        | .ok p => some (kd.1, p)
        | .error _ => none)) ∧
    cocktail_to_profile badSpiritRec =
      Except.error (ConvError.badSpirit "absinthe") ∧
    (ensure_cached demoTaxonomy).map (·.1) = ["negroni", "sazerac"] := by
  refine ⟨fun d h => ?_, fun tax => ?_, by decide, by decide⟩
  · rcases h with h | h | h
    · simp [cocktail_to_profile, spiritBaseOfValue_eq_none h, exceptOk]
    · have hfn : flavorTypeOfName (pyUpper (pyLower d.primary_flavor)) = none := by
        rw [pyUpper_pyLower]
        exact flavorTypeOfName_eq_none h
      rcases hs : spiritBaseOfValue (pyLower d.spirit_base) with _ | sp <;>
        simp [cocktail_to_profile, hs, hfn, exceptOk]
    · have hcn : complexityLevelOfValue (pyLower (d.complexity.getD "moderate")) =
          none := complexityLevelOfValue_eq_none h
      rcases hs : spiritBaseOfValue (pyLower d.spirit_base) with _ | sp
      · simp [cocktail_to_profile, hs, exceptOk]
      · rcases hf : flavorTypeOfName (pyUpper (pyLower d.primary_flavor)) with _ | fl <;>
          simp [cocktail_to_profile, hs, hf, hcn, exceptOk]
  · induction tax with
    | nil => rfl
    | cons kd rest ih =>
      obtain ⟨k, d⟩ := kd
      rcases hc : cocktail_to_profile d with e | p <;>
        simp [ensure_cached, hc, ih]

/-- C8 witness: a record with the unrecognized spirit label "absinthe"
satisfies the bad-label hypothesis and its conversion fails. -/
theorem conversion_fails_hard_cache_skips_c8_witness :
    exceptOk (cocktail_to_profile badSpiritRec) = false :=
  conversion_fails_hard_cache_skips_c8.1 badSpiritRec (Or.inl (by decide))

/-- C9: get_spirit_warmth answers from the fixed 7-entry table,
case-insensitively, with the interpretation drawn from the three fixed
bands (very warm when warmth ≥ 8, warm when warmth ≥ 6, cool otherwise),
and returns the structured not-recognized error for every name outside the
table instead of defaulting to 5. -/
theorem spirit_warmth_bands_c9 :
    (∀ s : String, warmth_map.find? (fun kv => kv.1 == pyLower s) = none →
      get_spirit_warmth s =
        Except.error ("Spirit '" ++ s ++ "' not recognized")) ∧
    (∀ (s : String) (w : Int),
      (warmth_map.find? (fun kv => kv.1 == pyLower s)).map (·.2) = some w →
      get_spirit_warmth s = Except.ok
        { spirit := pyLower s, warmth_level := w
          interpretation :=
            if w ≥ 8 then "very warm, golden, nostalgic"
            else if w ≥ 6 then "warm, moderate, balanced"
            else "cool, crisp, clean" }) ∧
    get_spirit_warmth "rum" =
      .ok ⟨"rum", 9, "very warm, golden, nostalgic"⟩ ∧
    get_spirit_warmth "WHISKEY" =
      .ok ⟨"whiskey", 8, "very warm, golden, nostalgic"⟩ ∧
    get_spirit_warmth "cognac" =
      .ok ⟨"cognac", 9, "very warm, golden, nostalgic"⟩ ∧
    get_spirit_warmth "Mezcal" =
      .ok ⟨"mezcal", 8, "very warm, golden, nostalgic"⟩ ∧
    get_spirit_warmth "tequila" =
      .ok ⟨"tequila", 7, "warm, moderate, balanced"⟩ ∧
    get_spirit_warmth "gin" = .ok ⟨"gin", 5, "cool, crisp, clean"⟩ ∧
    get_spirit_warmth "vodka" = .ok ⟨"vodka", 3, "cool, crisp, clean"⟩ ∧
    get_spirit_warmth "brandy" =
      Except.error ("Spirit '" ++ "brandy" ++ "' not recognized") := by
  refine ⟨fun s h => ?_, fun s w h => ?_, by decide, by decide, by decide,
    by decide, by decide, by decide, by decide, by decide⟩
  · simp [get_spirit_warmth, h]
  · simp [get_spirit_warmth, h]

/-- C9 witness: "brandy" is outside the table and gets the structured
error; "rum" is found with warmth 9 and the very-warm band. -/
theorem spirit_warmth_bands_c9_witness :
    get_spirit_warmth "brandy" =
      Except.error ("Spirit '" ++ "brandy" ++ "' not recognized") ∧
    get_spirit_warmth "rum" = Except.ok
      { spirit := pyLower "rum", warmth_level := 9
        interpretation :=
          if (9 : Int) ≥ 8 then "very warm, golden, nostalgic"
          else if (9 : Int) ≥ 6 then "warm, moderate, balanced"
          else "cool, crisp, clean" } :=
  ⟨spirit_warmth_bands_c9.1 "brandy" (by decide),
   spirit_warmth_bands_c9.2.1 "rum" 9 (by decide)⟩
